import Mathlib

/-!
Shallow embedding of `src/app.py` (haascha/SQLtoCSV): a `SQLServerConnection`
wrapper over a database driver (pyodbc), plus the parts of the interactive
shell (`render_procedure_interface`) that the claims refer to.

Driver effects (opening a connection, closing a handle, executing a statement)
are modelled as explicit outcome-valued function arguments; the wrapper's own
logic is translated line by line from the Python source.
-/

set_option autoImplicit false

namespace SQLtoCSV

/-- Opaque driver-level connection handle (a live pyodbc connection object).
The Python code never inspects it; it only stores it, passes it to
`close()` / `cursor()`, and tests its truthiness (`if self.connection:`,
where a handle object is truthy and `None` is falsy — modelled by `Option`). -/
structure Handle where
  id : Nat
deriving DecidableEq, Repr

/-- A Python value as it appears in a result row (enough structure for the
cells the spec's examples use; the code never inspects cell values). -/
inductive PyValue where
  | int (n : Int)
  | str (s : String)
  | null
deriving DecidableEq, Repr

/-- One result row: an ordered tuple of values, as returned by `cursor.fetchall()`. -/
abbrev Row := List PyValue

/-- One entry of `cursor.description`. The code reads only `column[0]`, the
column's name; the remaining fields of pyodbc's 7-tuple are never inspected. -/
structure ColumnDesc where
  name : String
deriving DecidableEq, Repr

/-- The tabular result the wrapper hands back (the code uses a pandas
DataFrame; only its columns and rows are ever consumed). -/
structure ResultSet where
  columns : List String
  rows : List Row
deriving DecidableEq, Repr

/-- State of the connection manager: the two instance attributes set in
`SQLServerConnection.__init__` (`self.connection = None`,
`self.is_connected = False`). -/
structure SQLServerConnection where
  connection : Option Handle
  is_connected : Bool
deriving DecidableEq, Repr

/-- The state `__init__` establishes. -/
def SQLServerConnection.init : SQLServerConnection :=
  { connection := none, is_connected := false }

/-- Outcome of `pyodbc.connect(connection_string, timeout=10)`:
a handle, a `pyodbc.Error`, or any other exception. -/
inductive ConnectOutcome where
  | ok (handle : Handle)
  | pyodbcError (msg : String)
  | otherError (msg : String)
deriving DecidableEq, Repr

/-- Outcome of `self.connection.close()`. -/
inductive CloseOutcome where
  | ok
  | error (msg : String)
deriving DecidableEq, Repr

/-- Outcome of `cursor()` / `cursor.execute(...)` / `fetchall()`:
on success, `cursor.description` (column metadata or `None`) and the fetched
rows; otherwise a `pyodbc.Error` or any other exception. -/
inductive ExecOutcome where
  | ok (description : Option (List ColumnDesc)) (rows : List Row)
  | pyodbcError (msg : String)
  | otherError (msg : String)
deriving DecidableEq, Repr

/-- Python's `str` on an optional string, as an f-string renders it
(`None` prints as "None"). -/
def pyStr : Option String → String
  | none => "None"
  | some s => s

/-- The ODBC connection string built by `SQLServerConnection.connect`
(lines 32-46 of app.py). -/
def connection_string (server database auth_type : String)
    (username password : Option String) : String :=
  if auth_type = "Windows" then
    "DRIVER=\x7bODBC Driver 17 for SQL Server\x7d;"
      ++ "SERVER=" ++ server ++ ";"
      ++ "DATABASE=" ++ database ++ ";"
      ++ "Trusted_Connection=yes;"
  else
    "DRIVER=\x7bODBC Driver 17 for SQL Server\x7d;"
      ++ "SERVER=" ++ server ++ ";"
      ++ "DATABASE=" ++ database ++ ";"
      ++ "UID=" ++ pyStr username ++ ";"
      ++ "PWD=" ++ pyStr password ++ ";"

/-- Embedding of `SQLServerConnection.connect` (app.py lines 17-57).
`driver` models `pyodbc.connect`, applied to the connection string and the
timeout (the code passes `timeout=10`). Note that on failure only
`self.is_connected` is assigned; `self.connection` keeps its prior value
because the exception is raised before the assignment on line 48. -/
def SQLServerConnection.connect (self : SQLServerConnection)
    (server database auth_type : String) (username password : Option String)
    (driver : String → Nat → ConnectOutcome) :
    SQLServerConnection × Bool × String :=
  match driver (connection_string server database auth_type username password) 10 with
  | .ok h =>
      ({ self with connection := some h, is_connected := true },
       true, "Connected successfully!")
  | .pyodbcError e =>
      ({ self with is_connected := false }, false, "Connection failed: " ++ e)
  | .otherError e =>
      ({ self with is_connected := false }, false, "Unexpected error: " ++ e)

/-- Embedding of `SQLServerConnection.disconnect` (app.py lines 59-68).
`close` models `self.connection.close()`. The source mutates no attribute
except `self.is_connected = False` on the success path: in particular
`self.connection` is never reset to `None`, and on a close failure neither
attribute changes. -/
def SQLServerConnection.disconnect (self : SQLServerConnection)
    (close : Handle → CloseOutcome) :
    SQLServerConnection × Bool × String :=
  match self.connection with
  | some h =>
      match close h with
      | .ok => ({ self with is_connected := false }, true, "Disconnected successfully")
      | .error e => (self, false, "Error disconnecting: " ++ e)
  | none => (self, true, "No active connection")

/-- A single call across the driver boundary: the statement text passed to
`cursor.execute` and the positional parameter list bound to it. -/
structure DriverCall where
  query : String
  params : List String
deriving DecidableEq, Repr

/-- The statement and positional values `execute_stored_procedure` builds
(app.py lines 87-94). `parameters` models the Python optional dict as an
insertion-ordered association list; `none` and the empty dict are both falsy
in `if parameters:`, so both take the no-parameter branch. -/
def build_call (procedure_name : String)
    (parameters : Option (List (String × String))) : DriverCall :=
  match parameters with
  | some ps =>
      if ps ≠ [] then
        let param_placeholders := String.intercalate ", " (ps.map (fun _ => "?"))
        let param_values := ps.map Prod.snd
        { query := "EXEC " ++ procedure_name ++ " " ++ param_placeholders,
          params := param_values }
      else
        { query := "EXEC " ++ procedure_name, params := [] }
  | none => { query := "EXEC " ++ procedure_name, params := [] }

/-- Embedding of `SQLServerConnection.execute_stored_procedure`
(app.py lines 70-108). `driver` models the cursor round trip
(`cursor()` + `execute` + `fetchall`); the second component of the result is
the list of driver calls actually issued, so "does not attempt the call"
is the statement that this list is empty. -/
def SQLServerConnection.execute_stored_procedure (self : SQLServerConnection)
    (procedure_name : String) (parameters : Option (List (String × String)))
    (driver : DriverCall → ExecOutcome) :
    (Bool × Option ResultSet × String) × List DriverCall :=
  if self.is_connected = false ∨ self.connection = none then
    ((false, none, "No active database connection"), [])
  else
    let call := build_call procedure_name parameters
    match driver call with
    | .ok description rows =>
        let columns := match description with
          | some desc => desc.map (fun c => c.name)
          | none => []
        if columns ≠ [] ∧ rows ≠ [] then
          ((true, some { columns := columns, rows := rows },
            "Procedure executed successfully. " ++ toString rows.length
              ++ " rows returned."), [call])
        else
          ((true, some { columns := [], rows := [] },
            "Procedure executed successfully. No data returned."), [call])
    | .pyodbcError e => ((false, none, "SQL Error: " ++ e), [call])
    | .otherError e => ((false, none, "Unexpected error: " ++ e), [call])

/-!
Fragments of the interactive shell (`render_procedure_interface`,
app.py lines 302-356) that the claims refer to.
-/

/-- Python dict assignment `d[k] = v` on an insertion-ordered association
list: an existing key keeps its position and gets the new value; a new key is
appended. -/
def dict_insert (d : List (String × String)) (k v : String) :
    List (String × String) :=
  if k ∈ d.map Prod.fst then
    d.map (fun p => if p.1 = k then (k, v) else p)
  else
    d ++ [(k, v)]

/-- One iteration of the parameter-collection loop (app.py lines 329-337):
a slot enters the dict only when both its name and its value are non-empty
(`if param_name and param_value:`). -/
def collect_step (d : List (String × String)) (pv : String × String) :
    List (String × String) :=
  if pv.1 ≠ "" ∧ pv.2 ≠ "" then dict_insert d pv.1 pv.2 else d

/-- The parameter-collection loop (app.py lines 326-337): each slot carries
the texts of its name and value fields, in slot order. -/
def collect_parameters (slots : List (String × String)) :
    List (String × String) :=
  slots.foldl collect_step []

/-- Shell state the claims touch: `st.session_state.last_result`. -/
structure ShellState where
  last_result : Option ResultSet
deriving DecidableEq, Repr

/-- The "Execute Procedure" click handler (app.py lines 342-356): with an
empty procedure name only an error banner is shown and nothing runs;
otherwise the collected parameters (empty dict replaced by `None` via
`parameters if parameters else None`) are passed to
`execute_stored_procedure`, and `last_result` is set to the returned data on
success and cleared to `None` on failure. Returns the new shell state and the
execution result when one was produced. -/
def execute_procedure_click (shell : ShellState) (db : SQLServerConnection)
    (procedure_name : String) (slots : List (String × String))
    (driver : DriverCall → ExecOutcome) :
    ShellState × Option (Bool × Option ResultSet × String) :=
  if procedure_name = "" then
    (shell, none)
  else
    let parameters := collect_parameters slots
    let res := (db.execute_stored_procedure procedure_name
      (if parameters ≠ [] then some parameters else none) driver).1
    (if res.1 then { shell with last_result := res.2.1 }
     else { shell with last_result := none }, some res)

/-!
Claims
-/

/-- C1: for every procedure name and every parameter mapping, calling
`execute_stored_procedure` while the manager is in the not-connected state
(`is_connected` false) returns `(false, none, "No active database
connection")` and issues no driver call. -/
theorem execute_not_connected (self : SQLServerConnection)
    (procedure_name : String) (parameters : Option (List (String × String)))
    (driver : DriverCall → ExecOutcome)
    (h : self.is_connected = false) :
    self.execute_stored_procedure procedure_name parameters driver
      = ((false, none, "No active database connection"), []) := by
  simp [SQLServerConnection.execute_stored_procedure, h]

/-- Witness for C1 at a concrete not-connected state, procedure name,
parameter mapping and driver. -/
theorem execute_not_connected_witness :
    (SQLServerConnection.mk (some ⟨7⟩) false).execute_stored_procedure
        "sp_GetEmployees" (some [("id", "1")])
        (fun _ => ExecOutcome.otherError "boom")
      = ((false, none, "No active database connection"), []) :=
  execute_not_connected _ _ _ _ rfl

/-- C4: for every connected execution whose driver result carries column
metadata and at least one row, `execute_stored_procedure` returns success,
a `ResultSet` with exactly those columns and rows in their original order,
and the message "Procedure executed successfully. N rows returned." where
N is the row count. -/
theorem execute_returns_rows (self : SQLServerConnection) (h : Handle)
    (procedure_name : String) (parameters : Option (List (String × String)))
    (driver : DriverCall → ExecOutcome)
    (desc : List ColumnDesc) (rows : List Row)
    (hc : self.is_connected = true) (hconn : self.connection = some h)
    (hd : driver (build_call procedure_name parameters)
      = ExecOutcome.ok (some desc) rows)
    (hdesc : desc ≠ []) (hrows : rows ≠ []) :
    self.execute_stored_procedure procedure_name parameters driver
      = ((true,
          some { columns := desc.map (fun c => c.name), rows := rows },
          "Procedure executed successfully. " ++ toString rows.length
            ++ " rows returned."),
         [build_call procedure_name parameters]) := by
  simp [SQLServerConnection.execute_stored_procedure, hc, hconn, hd, hdesc, hrows]

/-- Witness for C4: two columns ["id", "name"], two rows [(1,"a"), (2,"b")],
yielding the message "Procedure executed successfully. 2 rows returned.". -/
theorem execute_returns_rows_witness :
    (SQLServerConnection.mk (some ⟨0⟩) true).execute_stored_procedure
        "sp_GetEmployees" none
        (fun _ => ExecOutcome.ok (some [⟨"id"⟩, ⟨"name"⟩])
          [[PyValue.int 1, PyValue.str "a"], [PyValue.int 2, PyValue.str "b"]])
      = ((true,
          some { columns := ["id", "name"],
                 rows := [[PyValue.int 1, PyValue.str "a"],
                          [PyValue.int 2, PyValue.str "b"]] },
          "Procedure executed successfully. 2 rows returned."),
         [{ query := "EXEC sp_GetEmployees", params := [] }]) :=
  execute_returns_rows _ ⟨0⟩ _ _ _ [⟨"id"⟩, ⟨"name"⟩]
    [[PyValue.int 1, PyValue.str "a"], [PyValue.int 2, PyValue.str "b"]]
    rfl rfl rfl (by simp) (by simp)

/-- C5: for every connected execution whose driver result has no rows or no
column metadata, `execute_stored_procedure` returns success, an empty
`ResultSet`, and the message "Procedure executed successfully. No data
returned.". -/
theorem execute_no_data (self : SQLServerConnection) (h : Handle)
    (procedure_name : String) (parameters : Option (List (String × String)))
    (driver : DriverCall → ExecOutcome)
    (description : Option (List ColumnDesc)) (rows : List Row)
    (hc : self.is_connected = true) (hconn : self.connection = some h)
    (hd : driver (build_call procedure_name parameters)
      = ExecOutcome.ok description rows)
    (hempty : description = none ∨ description = some [] ∨ rows = []) :
    self.execute_stored_procedure procedure_name parameters driver
      = ((true, some { columns := [], rows := [] },
          "Procedure executed successfully. No data returned."),
         [build_call procedure_name parameters]) := by
  rcases hempty with hcase | hcase | hcase <;>
    subst hcase <;>
    simp [SQLServerConnection.execute_stored_procedure, hc, hconn, hd]

/-- Witness for C5: a connected execution whose driver result has no result
set (description is None). -/
theorem execute_no_data_witness :
    (SQLServerConnection.mk (some ⟨0⟩) true).execute_stored_procedure
        "sp_DoWork" none (fun _ => ExecOutcome.ok none [])
      = ((true, some { columns := [], rows := [] },
          "Procedure executed successfully. No data returned."),
         [{ query := "EXEC sp_DoWork", params := [] }]) :=
  execute_no_data _ ⟨0⟩ _ _ _ none [] rfl rfl rfl (Or.inl rfl)

/-- C10: when a connected execution succeeds with column metadata present but
zero rows, the returned empty `ResultSet` discards the column names — its
`columns` field is `[]`, not the metadata's (non-empty) name list, so the
schema is not recoverable from the result. -/
theorem execute_zero_rows_discards_columns (self : SQLServerConnection)
    (h : Handle) (procedure_name : String)
    (parameters : Option (List (String × String)))
    (driver : DriverCall → ExecOutcome) (desc : List ColumnDesc)
    (hc : self.is_connected = true) (hconn : self.connection = some h)
    (hd : driver (build_call procedure_name parameters)
      = ExecOutcome.ok (some desc) [])
    (hdesc : desc ≠ []) :
    (self.execute_stored_procedure procedure_name parameters driver).1
      = (true, some { columns := [], rows := [] },
         "Procedure executed successfully. No data returned.")
    ∧ desc.map (fun c => c.name) ≠ [] := by
  refine ⟨?_, by simpa using hdesc⟩
  simp [SQLServerConnection.execute_stored_procedure, hc, hconn, hd]

/-- Witness for C10: metadata ["id", "name"] with zero rows comes back as a
ResultSet with empty columns. -/
theorem execute_zero_rows_discards_columns_witness :
    ((SQLServerConnection.mk (some ⟨0⟩) true).execute_stored_procedure
        "sp_GetEmployees" none
        (fun _ => ExecOutcome.ok (some [⟨"id"⟩, ⟨"name"⟩]) [])).1
      = (true, some { columns := [], rows := [] },
         "Procedure executed successfully. No data returned.")
    ∧ ([⟨"id"⟩, ⟨"name"⟩] : List ColumnDesc).map (fun c => c.name) ≠ [] :=
  execute_zero_rows_discards_columns _ ⟨0⟩ _ _ _ [⟨"id"⟩, ⟨"name"⟩]
    rfl rfl rfl (by simp)

/-- C6: for every procedure name and non-empty parameter mapping, a connected
execution issues exactly one driver call whose statement text is
"EXEC <name> <placeholders>" with as many placeholders as parameters
(a comma-separated list of `?`), whose bound positional list is the parameter
values in order, and whose statement text depends only on the number of
parameters — no parameter value (or name) is interpolated into it. -/
theorem execute_builds_positional_call (self : SQLServerConnection)
    (h : Handle) (procedure_name : String) (ps : List (String × String))
    (driver : DriverCall → ExecOutcome)
    (hc : self.is_connected = true) (hconn : self.connection = some h)
    (hne : ps ≠ []) :
    (self.execute_stored_procedure procedure_name (some ps) driver).2
        = [build_call procedure_name (some ps)]
    ∧ (build_call procedure_name (some ps)).query
        = "EXEC " ++ procedure_name ++ " "
            ++ String.intercalate ", " (List.replicate ps.length "?")
    ∧ (build_call procedure_name (some ps)).params = ps.map Prod.snd
    ∧ ∀ qs : List (String × String), qs ≠ [] → qs.length = ps.length →
        (build_call procedure_name (some qs)).query
          = (build_call procedure_name (some ps)).query := by
  have hquery : ∀ rs : List (String × String), rs ≠ [] →
      build_call procedure_name (some rs)
        = { query := "EXEC " ++ procedure_name ++ " "
              ++ String.intercalate ", " (List.replicate rs.length "?"),
            params := rs.map Prod.snd } := by
    intro rs hrs
    simp [build_call, hrs, List.map_const']
  refine ⟨?_, ?_, ?_, ?_⟩
  · have hguard : ¬(self.is_connected = false ∨ self.connection = none) := by
      simp [hc, hconn]
    simp only [SQLServerConnection.execute_stored_procedure, if_neg hguard]
    cases driver (build_call procedure_name (some ps)) with
    | ok d r => dsimp only; split <;> rfl
    | pyodbcError m => rfl
    | otherError m => rfl
  · rw [hquery ps hne]
  · rw [hquery ps hne]
  · intro qs hqs hlen
    rw [hquery ps hne, hquery qs hqs, hlen]

/-- Witness for C6: two parameters produce "EXEC sp_Find ?, ?" bound to the
two values in order, and a different value list of the same length yields the
same statement text. -/
theorem execute_builds_positional_call_witness :
    ((SQLServerConnection.mk (some ⟨0⟩) true).execute_stored_procedure
        "sp_Find" (some [("a", "1"), ("b", "x")])
        (fun _ => ExecOutcome.ok none [])).2
        = [build_call "sp_Find" (some [("a", "1"), ("b", "x")])]
    ∧ (build_call "sp_Find" (some [("a", "1"), ("b", "x")])).query
        = "EXEC " ++ "sp_Find" ++ " "
            ++ String.intercalate ", " (List.replicate 2 "?")
    ∧ (build_call "sp_Find" (some [("a", "1"), ("b", "x")])).params
        = ["1", "x"]
    ∧ ∀ qs : List (String × String), qs ≠ [] → qs.length = 2 →
        (build_call "sp_Find" (some qs)).query
          = (build_call "sp_Find" (some [("a", "1"), ("b", "x")])).query :=
  execute_builds_positional_call _ ⟨0⟩ "sp_Find" [("a", "1"), ("b", "x")] _
    rfl rfl (by simp)

/-- C7: whenever opening the driver connection fails, `connect` leaves the
manager not-connected (`is_connected` false, `connection` unchanged) and
returns false with a message: the driver's own error text wrapped as
"Connection failed: ..." for a pyodbc error, and the generic
"Unexpected error: ..." for any other failure. -/
theorem connect_failure (self : SQLServerConnection)
    (server database auth_type : String) (username password : Option String)
    (driver : String → Nat → ConnectOutcome) :
    (∀ e : String,
      driver (connection_string server database auth_type username password) 10
          = ConnectOutcome.pyodbcError e →
      self.connect server database auth_type username password driver
        = ({ self with is_connected := false }, false, "Connection failed: " ++ e))
    ∧ (∀ e : String,
      driver (connection_string server database auth_type username password) 10
          = ConnectOutcome.otherError e →
      self.connect server database auth_type username password driver
        = ({ self with is_connected := false }, false, "Unexpected error: " ++ e)) := by
  constructor <;> intro e hd <;> simp [SQLServerConnection.connect, hd]

/-- Witness for C7: a concrete pyodbc-level failure leaves the fresh manager
not-connected with the driver's text surfaced. -/
theorem connect_failure_witness :
    SQLServerConnection.init.connect "localhost" "MyDatabase" "Windows"
        none none (fun _ _ => ConnectOutcome.pyodbcError "login failed")
      = ({ SQLServerConnection.init with is_connected := false },
         false, "Connection failed: " ++ "login failed") :=
  (connect_failure SQLServerConnection.init "localhost" "MyDatabase" "Windows"
      none none (fun _ _ => ConnectOutcome.pyodbcError "login failed")).1
    "login failed" rfl

/-- C2 counterexample: after a successful connect and a successful
disconnect, `self.connection` still holds the handle (line 64 resets only
`self.is_connected`; `self.connection` is never set back to `None`), so a
subsequent disconnect re-enters the `if self.connection:` branch and closes
again — here the close succeeds and the call returns
`(true, "Disconnected successfully")`, not `(true, "No active connection")`. -/
theorem disconnect_twice_counterexample :
    (let s1 := (SQLServerConnection.init.connect "localhost" "MyDatabase"
      "Windows" none none (fun _ _ => ConnectOutcome.ok ⟨0⟩)).1
     let s2 := (s1.disconnect (fun _ => CloseOutcome.ok)).1
     s2.is_connected = false
     ∧ s2.connection = some ⟨0⟩
     ∧ (s2.disconnect (fun _ => CloseOutcome.ok)).2
         = (true, "Disconnected successfully")
     ∧ (s2.disconnect (fun _ => CloseOutcome.ok)).2
         ≠ (true, "No active connection")) := by
  decide

/-- C2 amended: a successful connect followed by a successful disconnect
clears the `is_connected` flag but retains the handle reference; a subsequent
disconnect therefore attempts to close the handle again, returning
`(true, "Disconnected successfully")` if that close succeeds and
`(false, "Error disconnecting: <message>")` if it fails — never
`(true, "No active connection")`. -/
theorem disconnect_after_disconnect_closes_again
    (server database auth_type : String) (username password : Option String)
    (h : Handle) (close₁ close₂ : Handle → CloseOutcome)
    (hclose : close₁ h = CloseOutcome.ok) :
    (let s1 := (SQLServerConnection.init.connect server database auth_type
      username password (fun _ _ => ConnectOutcome.ok h)).1
     let s2 := (s1.disconnect close₁).1
     s2.is_connected = false
     ∧ s2.connection = some h
     ∧ (s2.disconnect close₂).2
         = (match close₂ h with
            | CloseOutcome.ok => (true, "Disconnected successfully")
            | CloseOutcome.error e => (false, "Error disconnecting: " ++ e))
     ∧ (s2.disconnect close₂).2 ≠ (true, "No active connection")) := by
  refine ⟨?_, ?_, ?_, ?_⟩ <;>
    cases hc : close₂ h <;>
      simp [SQLServerConnection.connect, SQLServerConnection.disconnect,
        SQLServerConnection.init, hclose, hc]

/-- Witness for the amended C2 at concrete inputs: the second close fails the
way pyodbc fails on an already-closed handle. -/
theorem disconnect_after_disconnect_closes_again_witness :
    (let s1 := (SQLServerConnection.init.connect "localhost" "MyDatabase"
      "Windows" none none (fun _ _ => ConnectOutcome.ok ⟨0⟩)).1
     let s2 := (s1.disconnect (fun _ => CloseOutcome.ok)).1
     s2.is_connected = false
     ∧ s2.connection = some ⟨0⟩
     ∧ (s2.disconnect
          (fun _ => CloseOutcome.error "Attempt to use a closed connection.")).2
         = (match (fun _ : Handle =>
              CloseOutcome.error "Attempt to use a closed connection.") ⟨0⟩ with
            | CloseOutcome.ok => (true, "Disconnected successfully")
            | CloseOutcome.error e => (false, "Error disconnecting: " ++ e))
     ∧ (s2.disconnect
          (fun _ => CloseOutcome.error "Attempt to use a closed connection.")).2
         ≠ (true, "No active connection")) :=
  disconnect_after_disconnect_closes_again "localhost" "MyDatabase" "Windows"
    none none ⟨0⟩ (fun _ => CloseOutcome.ok)
    (fun _ => CloseOutcome.error "Attempt to use a closed connection.") rfl

/-- C3 counterexample: when the close fails, the except branch on lines 66-67
performs no state change at all — the manager keeps `connection = some ⟨0⟩`
(the reference is not dropped) and even keeps `is_connected = true`. -/
theorem disconnect_failure_counterexample :
    (let s : SQLServerConnection := ⟨some ⟨0⟩, true⟩
     let r := s.disconnect (fun _ => CloseOutcome.error "handle is busy")
     r.2 = (false, "Error disconnecting: handle is busy")
     ∧ r.1.connection = some ⟨0⟩
     ∧ r.1.is_connected = true) := by
  decide

/-- C3 amended: when disconnect is called with a live handle and the close
fails, it returns `(false, "Error disconnecting: <message>")` and the
manager's state is completely unchanged — the handle reference is retained
(not dropped) and the connected flag keeps its value. -/
theorem disconnect_failure_keeps_state (self : SQLServerConnection)
    (h : Handle) (close : Handle → CloseOutcome) (e : String)
    (hconn : self.connection = some h)
    (hclose : close h = CloseOutcome.error e) :
    self.disconnect close = (self, false, "Error disconnecting: " ++ e) := by
  simp [SQLServerConnection.disconnect, hconn, hclose]

/-- Witness for the amended C3 at a concrete connected state and failing
close. -/
theorem disconnect_failure_keeps_state_witness :
    (SQLServerConnection.mk (some ⟨0⟩) true).disconnect
        (fun _ => CloseOutcome.error "handle is busy")
      = (SQLServerConnection.mk (some ⟨0⟩) true,
         false, "Error disconnecting: " ++ "handle is busy") :=
  disconnect_failure_keeps_state _ ⟨0⟩ _ "handle is busy" rfl rfl

/-- C8: whenever the execution the click handler runs comes back with
success = false, the handler sets `st.session_state.last_result = None`
(line 356), clearing any previously stored result. -/
theorem failed_execution_clears_last_result (shell : ShellState)
    (db : SQLServerConnection) (procedure_name : String)
    (slots : List (String × String)) (driver : DriverCall → ExecOutcome)
    (hname : procedure_name ≠ "")
    (hfail : ((db.execute_stored_procedure procedure_name
        (if collect_parameters slots ≠ [] then some (collect_parameters slots)
         else none) driver).1).1 = false) :
    (execute_procedure_click shell db procedure_name slots driver).1.last_result
      = none := by
  unfold execute_procedure_click
  rw [if_neg hname]
  dsimp only
  rw [hfail]
  rfl

/-- Witness for C8: a shell holding a stale one-row result issues an
execution against a disconnected manager; the failure clears the result. -/
theorem failed_execution_clears_last_result_witness :
    (execute_procedure_click
        { last_result := some { columns := ["id"], rows := [[PyValue.int 1]] } }
        SQLServerConnection.init "sp_GetEmployees" []
        (fun _ => ExecOutcome.ok none [])).1.last_result = none :=
  failed_execution_clears_last_result _ SQLServerConnection.init
    "sp_GetEmployees" [] _ (by decide) rfl

/-- Keys of `dict_insert d k v`: an existing key keeps the key list
unchanged, a fresh key is appended; membership-wise, the keys are those of
`d` plus `k`. -/
theorem mem_keys_dict_insert (d : List (String × String)) (k v m : String) :
    m ∈ (dict_insert d k v).map Prod.fst ↔ m ∈ d.map Prod.fst ∨ m = k := by
  have hfst : ∀ l : List (String × String),
      (l.map (fun p => if p.1 = k then (k, v) else p)).map Prod.fst
        = l.map Prod.fst := by
    intro l
    induction l with
    | nil => rfl
    | cons a t ih => by_cases ha : a.1 = k <;> simp [ha, ih]
  unfold dict_insert
  by_cases hk : k ∈ d.map Prod.fst
  · rw [if_pos hk, hfst]
    constructor
    · exact Or.inl
    · rintro (hm | rfl)
      · exact hm
      · exact hk
  · rw [if_neg hk]
    simp

/-- Membership in the keys of the collection fold, generalized over the
accumulator: a name is present iff it was already in the accumulator or some
slot supplies it with both fields non-empty. -/
theorem mem_keys_collect_foldl (slots : List (String × String))
    (d : List (String × String)) (n : String) :
    n ∈ (slots.foldl collect_step d).map Prod.fst
      ↔ n ∈ d.map Prod.fst ∨ ∃ v, (n, v) ∈ slots ∧ n ≠ "" ∧ v ≠ "" := by
  induction slots generalizing d with
  | nil => simp
  | cons pv rest ih =>
    rw [List.foldl_cons, ih]
    unfold collect_step
    by_cases hcond : pv.1 ≠ "" ∧ pv.2 ≠ ""
    · rw [if_pos hcond, mem_keys_dict_insert]
      constructor
      · rintro ((hd | rfl) | ⟨v, hv, hn, hvne⟩)
        · exact Or.inl hd
        · exact Or.inr ⟨pv.2, List.mem_cons_self _ _, hcond.1, hcond.2⟩
        · exact Or.inr ⟨v, List.mem_cons_of_mem _ hv, hn, hvne⟩
      · rintro (hd | ⟨v, hv, hn, hvne⟩)
        · exact Or.inl (Or.inl hd)
        · rcases List.mem_cons.mp hv with heq | hrest
          · exact Or.inl (Or.inr (by rw [← heq]))
          · exact Or.inr ⟨v, hrest, hn, hvne⟩
    · rw [if_neg hcond]
      constructor
      · rintro (hd | ⟨v, hv, hn, hvne⟩)
        · exact Or.inl hd
        · exact Or.inr ⟨v, List.mem_cons_of_mem _ hv, hn, hvne⟩
      · rintro (hd | ⟨v, hv, hn, hvne⟩)
        · exact Or.inl hd
        · rcases List.mem_cons.mp hv with heq | hrest
          · subst heq
            exact absurd ⟨hn, hvne⟩ hcond
          · exact Or.inr ⟨v, hrest, hn, hvne⟩

/-- C9: a parameter name is included in the mapping handed to
`execute_stored_procedure` if and only if some slot supplies that name with
both the name and the value non-empty; a slot missing either field is
silently skipped (the collection is a total function — no error path). -/
theorem parameter_included_iff (slots : List (String × String)) (n : String) :
    n ∈ (collect_parameters slots).map Prod.fst
      ↔ ∃ v, (n, v) ∈ slots ∧ n ≠ "" ∧ v ≠ "" := by
  rw [collect_parameters, mem_keys_collect_foldl]
  simp

end SQLtoCSV
